import Mathlib

/-!
Verification development for the Kubespray Scale API server
(`src/kubespray_scale_api.py`), a Flask service that serializes addition and
removal of worker nodes in a Kubespray-managed cluster.

The embedding below translates the inventory data model and the mutation,
submission and job-processing functions of the source into executable Lean
definitions.  File I/O is modelled as explicit state passing over an
`Inventory` value (the parsed YAML document); external collaborators
(kubectl, ansible-playbook) are modelled as parameters carrying their
observable outcome.  Backup success is a Boolean parameter because
`backup_inventory` swallows its own exceptions and its caller ignores the
result.  YAML group values are modelled as dictionaries whose `hosts` key is
optional (`Option (List String)`); degenerate null-valued groups, which the
source only ever reaches through its blanket exception handlers, are outside
the model.
-/

namespace KubesprayScaleApi

/-- Association-list lookup, mirroring Python `d[k]` / `k in d`. -/
def lookupKV {α : Type} : List (String × α) → String → Option α
  | [], _ => none
  | p :: ps, k => if p.1 = k then some p.2 else lookupKV ps k

/-- Association-list insertion, mirroring Python `d[k] = v`: overwrite in
place when the key exists, append otherwise. -/
def insertKV {α : Type} : List (String × α) → String → α → List (String × α)
  | [], k, v => [(k, v)]
  | p :: ps, k, v => if p.1 = k then (k, v) :: ps else p :: insertKV ps k v

/-- Association-list deletion, mirroring Python `del d[k]`. -/
def eraseKV {α : Type} (l : List (String × α)) (k : String) :
    List (String × α) :=
  l.filter (fun p => p.1 ≠ k)

/-- The host variables written by `update_inventory` for a new host
(`ansible_host`, `ip`, `access_ip`, `ansible_user`,
`ansible_shell_executable`). -/
structure HostVars where
  ansible_host : String
  ip : String
  access_ip : String
  ansible_user : String
  ansible_shell_executable : String
deriving DecidableEq, Repr

/-- A group under `inventory['all']['children']`: a dictionary whose
`hosts` key may be absent (`none`) or hold a set of hostnames (its keys). -/
abbrev Group := Option (List String)

/-- The parsed inventory document `inventory['all']`: the optional
`vars['ansible_shell_executable']` entry, the `hosts` mapping and the
`children` group mapping. -/
structure Inventory where
  vars_shell : Option String
  hosts : List (String × HostVars)
  children : List (String × Group)
deriving DecidableEq, Repr

/-- `True` when `hostname` is listed under `children[g]['hosts']`,
mirroring the source's nested `in` checks. -/
def hostInGroup (inv : Inventory) (g hostname : String) : Bool :=
  match lookupKV inv.children g with
  | some (some l) => hostname ∈ l
  | _ => false

/-- One observable file-system event of a mutation: the backup attempt
(carrying the saved copy, `none` when the backup write failed) or the
rewrite of the inventory file. -/
inductive Ev where
  | backup (saved : Option Inventory)
  | write
deriving DecidableEq, Repr

/-- Result of an inventory mutation: the Boolean the Python function
returns, the document as stored afterwards, and the ordered file events. -/
structure MutResult where
  ok : Bool
  doc : Inventory
  trace : List Ev
deriving DecidableEq, Repr

/-- `backup_inventory` (lines 90-106): copies the current document to a
timestamped file; exceptions are caught, so failure only changes the saved
copy to `none`. -/
def backup_inventory (backupOk : Bool) (inv : Inventory) : Ev :=
  Ev.backup (if backupOk then some inv else none)

/-- `remove_from_inventory` (lines 109-150): backup first, fail if the
hostname is absent from `hosts`, fail if it is listed in the
`kube_control_plane` group, otherwise delete it from `hosts` and from the
`kube_node` group and write the document back. -/
def remove_from_inventory (backupOk : Bool) (inv : Inventory)
    (hostname : String) : MutResult :=
  let bk := backup_inventory backupOk inv
  if (lookupKV inv.hosts hostname).isNone then
    { ok := false, doc := inv, trace := [bk] }
  else if hostInGroup inv "kube_control_plane" hostname then
    { ok := false, doc := inv, trace := [bk] }
  else
    let hosts' := eraseKV inv.hosts hostname
    let children' :=
      if hostInGroup inv "kube_node" hostname then
        insertKV inv.children "kube_node"
          (some (((lookupKV inv.children "kube_node").getD none).getD []
            |>.filter (fun x => x ≠ hostname)))
      else inv.children
    { ok := true
      doc := { inv with hosts := hosts', children := children' }
      trace := [bk, Ev.write] }

/-- The host-variable dictionary `update_inventory` writes for the new
host. -/
def newHostVars (ip : String) : HostVars :=
  { ansible_host := ip
    ip := ip
    access_ip := ip
    ansible_user := "root"
    ansible_shell_executable := "/bin/bash" }

/-- `update_inventory` (lines 212-265): backup first, force
`vars['ansible_shell_executable']`, insert/overwrite the host entry,
ensure `kube_node.hosts` is a dictionary and add the hostname to it, then
write the document back. -/
def update_inventory (backupOk : Bool) (inv : Inventory)
    (hostname ip : String) : MutResult :=
  let bk := backup_inventory backupOk inv
  let hosts' := insertKV inv.hosts hostname (newHostVars ip)
  let kn : List String := ((lookupKV inv.children "kube_node").getD none).getD []
  let kn' := if hostname ∈ kn then kn else kn ++ [hostname]
  let children' := insertKV inv.children "kube_node" (some kn')
  { ok := true
    doc := { vars_shell := some "/bin/bash", hosts := hosts', children := children' }
    trace := [bk, Ev.write] }

/-- The job states of `class JobStatus` (lines 82-87). -/
inductive JobStatus where
  | pending
  | queued
  | running
  | completed
  | failed
deriving DecidableEq, Repr

/-- One entry of the global `jobs` map: the fields the claims observe. -/
structure JobRec where
  hostname : String
  ip : String
  status : JobStatus
deriving DecidableEq, Repr

/-- The mutable server state relevant to submission: the `jobs` registry
and the `ansible_queue` contents (each queue entry is
`(job_id, hostname, ip)`). -/
structure ServerState where
  jobs : List (String × JobRec)
  queue : List (String × String × String)
deriving DecidableEq, Repr

/-- The ADD job id `f"{hostname}_{ip}"` (line 459). -/
def add_job_id (hostname ip : String) : String :=
  hostname ++ "_" ++ ip

/-- The REMOVE job id `f"remove_{hostname}_{ip or 'unknown'}"` (line 513);
`ip` is the optional `ip` query parameter, and Python's `or` coalesces
every falsy value — a missing `ip` and the empty string alike — to
`"unknown"`. -/
def remove_job_id (hostname : String) (ip : Option String) : String :=
  "remove_" ++ hostname ++ "_" ++
    (match ip with
     | some s => if s = "" then "unknown" else s
     | none => "unknown")

/-- Response of the `/add-node` handler: HTTP 409 with the existing job's
id, or HTTP 202 with the new job's id and queue position. -/
inductive AddResponse where
  | conflict (job_id : String)
  | accepted (job_id : String) (queue_position : Nat)
deriving DecidableEq, Repr

/-- `add_node` (lines 444-497): reject with 409 when a job under the same
id is pending, queued or running; otherwise register a fresh QUEUED job
under that id and push it onto the queue. -/
def add_node (st : ServerState) (hostname ip : String) :
    AddResponse × ServerState :=
  let job_id := add_job_id hostname ip
  let inProgress : Bool :=
    match lookupKV st.jobs job_id with
    | some j =>
        j.status = JobStatus.pending ∨ j.status = JobStatus.queued ∨
          j.status = JobStatus.running
    | none => false
  if inProgress then
    (AddResponse.conflict job_id, st)
  else
    let jobs' := insertKV st.jobs job_id
      { hostname := hostname, ip := ip, status := JobStatus.queued }
    let queue' := st.queue ++ [(job_id, hostname, ip)]
    (AddResponse.accepted job_id queue'.length, { jobs := jobs', queue := queue' })

/-- Outcome of `drain_and_delete_node` (external `kubectl` calls), or
`none` when the caller passed `skip_k8s=true`. -/
structure K8sOutcome where
  nodeExists : Bool
  drained : Bool
  deleted : Bool
deriving DecidableEq, Repr

/-- Result of the `/remove-node` handler: the final job status, the HTTP
status code, the stored document afterwards and the file events of the
inventory step. -/
structure RemoveNodeResult where
  jobStatus : JobStatus
  httpCode : Nat
  doc : Inventory
  trace : List Ev
  kubernetes : Option K8sOutcome
deriving DecidableEq, Repr

/-- `remove_node` (lines 500-578): optionally drain/delete via kubectl
(its outcome never influences the rest), then `remove_from_inventory`;
the job ends COMPLETED with HTTP 200 exactly when the inventory removal
returned true, FAILED with HTTP 500 otherwise. -/
def remove_node (backupOk : Bool) (inv : Inventory) (hostname : String)
    (k8s : Option K8sOutcome) : RemoveNodeResult :=
  let r := remove_from_inventory backupOk inv hostname
  if r.ok then
    { jobStatus := JobStatus.completed, httpCode := 200, doc := r.doc,
      trace := r.trace, kubernetes := k8s }
  else
    { jobStatus := JobStatus.failed, httpCode := 500, doc := r.doc,
      trace := r.trace, kubernetes := k8s }

/-- Outcome of the external `ansible-playbook` invocation: an exit code,
a `subprocess.TimeoutExpired`, or some other exception. -/
inductive ProvResult where
  | exit (code : Int)
  | timeout
  | exn
deriving DecidableEq, Repr

/-- The readiness snapshot returned by `check_node_status` (lines 411-441,
an external `kubectl` query whose exceptions are all caught). -/
structure NodeStatus where
  nodeExists : Bool
  ready : Bool
deriving DecidableEq, Repr

/-- Terminal record of one ADD job processed by `run_ansible_playbook`:
final status, stored document, and the readiness snapshot attached to the
job (if any). -/
structure AddJobOutcome where
  status : JobStatus
  doc : Inventory
  node_status : Option NodeStatus
deriving DecidableEq, Repr

/-- `run_ansible_playbook` (lines 315-408): update the inventory (FAILED
if that returns false), run the playbook, and on exit code 0 attach the
`check_node_status` snapshot and mark the job COMPLETED; any non-zero
exit, timeout or exception marks it FAILED. -/
def run_ansible_playbook (backupOk : Bool) (inv : Inventory)
    (hostname ip : String) (prov : ProvResult) (ns : NodeStatus) :
    AddJobOutcome :=
  let u := update_inventory backupOk inv hostname ip
  if u.ok then
    match prov with
    | ProvResult.exit code =>
        if code = 0 then
          { status := JobStatus.completed, doc := u.doc, node_status := some ns }
        else
          { status := JobStatus.failed, doc := u.doc, node_status := none }
    | ProvResult.timeout =>
        { status := JobStatus.failed, doc := u.doc, node_status := none }
    | ProvResult.exn =>
        { status := JobStatus.failed, doc := u.doc, node_status := none }
  else
    { status := JobStatus.failed, doc := inv, node_status := none }

/-! ### Inventory reconciliation

The InventoryReconciler and CloudInventorySource of the spec have no code
in this repository's source tree; they are modelled from the spec's §4.2
algorithm and §6 collaborator contract. -/

/-- Origin tag of a host entry: hand-provisioned or cloud-sourced. -/
inductive Origin where
  | static
  | dynamic
deriving DecidableEq, Repr

/-- Modelled from the spec: a HostEntry as the reconciler sees it —
management address plus origin tag (role is derived from group
membership, not stored). -/
structure RHost where
  address : String
  origin : Origin
deriving DecidableEq, Repr

/-- Modelled from the spec: the InventoryDocument the reconciler rewrites —
hostname-keyed entries, the worker group, the control-plane group and the
remaining static groups. -/
structure RDoc where
  hosts : List (String × RHost)
  workerGroup : List String
  controlPlaneGroup : List String
  otherGroups : List (String × List String)
deriving DecidableEq, Repr

/-- Modelled from the spec: one server reported by
`CloudInventorySource.listManagedServers()` — name, private addresses
tagged with their network, and an optional public address. -/
structure CloudServer where
  name : String
  privateAddresses : List (String × String)
  publicAddress : Option String
deriving DecidableEq, Repr

/-- Modelled from the spec: deterministic management-address resolution —
address on the designated private network if configured and present,
else the first private address, else the public address; `none` when no
tier yields an address. -/
def resolveAddress (designatedNet : Option String) (s : CloudServer) :
    Option String :=
  match designatedNet.bind
      (fun net => (s.privateAddresses.find? (fun p => p.1 = net)).map
        (fun p => p.2)) with
  | some a => some a
  | none =>
      match s.privateAddresses.head? with
      | some p => some p.2
      | none => s.publicAddress

/-- `True` when the document's first entry for `n` is a static host. -/
def isStaticIn (doc : RDoc) (n : String) : Bool :=
  match lookupKV doc.hosts n with
  | some e => e.origin = Origin.static
  | none => false

/-- Modelled from the spec: the reconciliation algorithm of §4.2 —
keep static hosts unchanged, discard dynamic ones, re-add every cloud
server with a resolvable address as a dynamic host (skipping the rest),
rebuild the worker group as its surviving static members plus all
resolved dynamic hosts, and leave the control-plane and other static
groups untouched. -/
def reconcile (designatedNet : Option String) (cloud : List CloudServer)
    (doc : RDoc) : RDoc :=
  let staticHosts := doc.hosts.filter (fun p => p.2.origin = Origin.static)
  let resolved := cloud.filterMap
    (fun s => (resolveAddress designatedNet s).map (fun a => (s.name, a)))
  let dynEntries := (resolved.filter
      (fun p => ¬ staticHosts.any (fun q => q.1 = p.1))).map
    (fun p => (p.1, ({ address := p.2, origin := Origin.dynamic } : RHost)))
  let resolvedNames := resolved.map (fun p => p.1)
  { hosts := staticHosts ++ dynEntries
    workerGroup := doc.workerGroup.filter (fun n => isStaticIn doc n) ++ resolvedNames
    controlPlaneGroup := doc.controlPlaneGroup
    otherGroups := doc.otherGroups }

/-! ### Sample documents and states used by concrete witnesses -/

/-- A small inventory with one control-plane host and one worker. -/
def sampleInv : Inventory :=
  { vars_shell := none
    hosts := [("master-1", newHostVars "10.0.0.1"), ("w0", newHostVars "10.0.0.2")]
    children := [("kube_control_plane", some ["master-1"]), ("kube_node", some ["w0"])] }

/-- An inventory whose single host also belongs to a group other than
`kube_node`. -/
def etcdInv : Inventory :=
  { vars_shell := none
    hosts := [("n1", newHostVars "10.0.0.9")]
    children := [("kube_node", some ["n1"]), ("etcd", some ["n1"])] }

/-- A registry holding one RUNNING job under the key `"w1_10.0.0.5"`. -/
def runningState : ServerState :=
  { jobs := [("w1_10.0.0.5",
      { hostname := "w1", ip := "10.0.0.5", status := JobStatus.running })]
    queue := [] }

/-- A registry holding one FAILED job under the key `"w1_10.0.0.5"`. -/
def failedState : ServerState :=
  { jobs := [("w1_10.0.0.5",
      { hostname := "w1", ip := "10.0.0.5", status := JobStatus.failed })]
    queue := [] }

/-! ### Association-list lemmas -/

theorem lookupKV_insertKV_self {α : Type} (l : List (String × α)) (k : String) (v : α) :
    lookupKV (insertKV l k v) k = some v := by
  induction l with
  | nil => simp [insertKV, lookupKV]
  | cons p ps ih =>
      by_cases hp : p.1 = k
      · simp [insertKV, hp, lookupKV]
      · simp [insertKV, hp, lookupKV, ih]

theorem lookupKV_insertKV_ne {α : Type} (l : List (String × α)) (k k' : String) (v : α)
    (h : k' ≠ k) : lookupKV (insertKV l k v) k' = lookupKV l k' := by
  induction l with
  | nil => simp [insertKV, lookupKV, Ne.symm h]
  | cons p ps ih =>
      by_cases hp : p.1 = k
      · have : ¬ p.1 = k' := by rw [hp]; exact Ne.symm h
        simp [insertKV, hp, lookupKV, Ne.symm h, this]
      · simp [insertKV, hp, lookupKV, ih]

theorem lookupKV_eraseKV_self {α : Type} (l : List (String × α)) (k : String) :
    lookupKV (eraseKV l k) k = none := by
  induction l with
  | nil => simp [eraseKV, lookupKV]
  | cons p ps ih =>
      by_cases hp : p.1 = k
      · simpa [eraseKV, hp, List.filter_cons] using ih
      · simpa [eraseKV, hp, List.filter_cons, lookupKV] using ih

theorem length_insertKV_of_lookup {α : Type} (l : List (String × α)) (k : String)
    (v w : α) (h : lookupKV l k = some w) : (insertKV l k v).length = l.length := by
  induction l with
  | nil => simp [lookupKV] at h
  | cons p ps ih =>
      by_cases hp : p.1 = k
      · simp [insertKV, hp]
      · have h' : lookupKV ps k = some w := by simpa [lookupKV, hp] using h
        simp [insertKV, hp, ih h']

theorem lookupKV_append_of_some {α : Type} {l₁ l₂ : List (String × α)} {k : String}
    {v : α} (h : lookupKV l₁ k = some v) : lookupKV (l₁ ++ l₂) k = some v := by
  induction l₁ with
  | nil => simp [lookupKV] at h
  | cons p ps ih =>
      by_cases hp : p.1 = k
      · have hv : p.2 = v := by simpa [lookupKV, hp] using h
        simp [lookupKV, hp, hv]
      · have h' : lookupKV ps k = some v := by simpa [lookupKV, hp] using h
        simpa [lookupKV, hp] using ih h'

theorem lookupKV_filter_of_some {α : Type} {l : List (String × α)} {q : String × α → Bool}
    {k : String} {v : α} (h : lookupKV l k = some v) (hq : q (k, v) = true) :
    lookupKV (l.filter q) k = some v := by
  induction l with
  | nil => simp [lookupKV] at h
  | cons p ps ih =>
      by_cases hp : p.1 = k
      · have hv : p.2 = v := by simpa [lookupKV, hp] using h
        have hpair : p = (k, v) := by
          rcases p with ⟨a, b⟩
          simp only at hp hv
          rw [hp, hv]
        rw [List.filter_cons, hpair, hq]
        simp [lookupKV]
      · have h' : lookupKV ps k = some v := by simpa [lookupKV, hp] using h
        rw [List.filter_cons]
        by_cases hqp : q p = true
        · simp [hqp, lookupKV, hp, ih h']
        · simp [hqp, ih h']

/-! ### Claim theorems -/

/-- Claim C1: submitting a REMOVE for any hostname that is a member of the
control-plane group ends the job FAILED (HTTP 500), leaves the stored
inventory document unchanged — the host is not deleted — and the only file
event is the backup attempt made before the removal attempt (holding a
copy of the untouched document whenever the backup write succeeds). -/
theorem remove_node_control_plane_failed (backupOk : Bool) (inv : Inventory)
    (hostname : String) (k8s : Option K8sOutcome)
    (hcp : hostInGroup inv "kube_control_plane" hostname = true) :
    (remove_node backupOk inv hostname k8s).jobStatus = JobStatus.failed ∧
    (remove_node backupOk inv hostname k8s).httpCode = 500 ∧
    (remove_node backupOk inv hostname k8s).doc = inv ∧
    (remove_node backupOk inv hostname k8s).trace = [backup_inventory backupOk inv] := by
  by_cases habs : (lookupKV inv.hosts hostname).isNone
  · simp [remove_node, remove_from_inventory, habs]
  · simp [remove_node, remove_from_inventory, habs, hcp]

/-- Witness for C1 at a concrete control-plane host with a succeeding
backup: the job fails, the document is untouched and the backup holds it. -/
theorem remove_node_control_plane_failed_witness :
    hostInGroup sampleInv "kube_control_plane" "master-1" = true ∧
    ((remove_node true sampleInv "master-1" none).jobStatus = JobStatus.failed ∧
      (remove_node true sampleInv "master-1" none).httpCode = 500 ∧
      (remove_node true sampleInv "master-1" none).doc = sampleInv ∧
      (remove_node true sampleInv "master-1" none).trace
        = [backup_inventory true sampleInv]) :=
  ⟨by decide, remove_node_control_plane_failed true sampleInv "master-1" none (by decide)⟩

/-- Claim C10: a REMOVE for a hostname absent from the inventory's host map
ends the job FAILED with an HTTP 500 error response and an unchanged
document, whatever the runtime-cleanup outcome (including skipped) was —
removal of an absent host is not an idempotent success. -/
theorem remove_absent_host_failed (backupOk : Bool) (inv : Inventory)
    (hostname : String) (k8s : Option K8sOutcome)
    (habs : lookupKV inv.hosts hostname = none) :
    (remove_node backupOk inv hostname k8s).jobStatus = JobStatus.failed ∧
    (remove_node backupOk inv hostname k8s).httpCode = 500 ∧
    (remove_node backupOk inv hostname k8s).doc = inv ∧
    (remove_node backupOk inv hostname k8s).kubernetes = k8s := by
  simp [remove_node, remove_from_inventory, habs]

/-- Witness for C10 at a concrete absent hostname, with a fully successful
runtime cleanup attached. -/
theorem remove_absent_host_failed_witness :
    lookupKV sampleInv.hosts "ghost" = none ∧
    ((remove_node true sampleInv "ghost"
        (some { nodeExists := true, drained := true, deleted := true })).jobStatus
          = JobStatus.failed ∧
      (remove_node true sampleInv "ghost"
        (some { nodeExists := true, drained := true, deleted := true })).httpCode = 500 ∧
      (remove_node true sampleInv "ghost"
        (some { nodeExists := true, drained := true, deleted := true })).doc = sampleInv ∧
      (remove_node true sampleInv "ghost"
        (some { nodeExists := true, drained := true, deleted := true })).kubernetes
          = some { nodeExists := true, drained := true, deleted := true }) :=
  ⟨by decide, remove_absent_host_failed true sampleInv "ghost"
    (some { nodeExists := true, drained := true, deleted := true }) (by decide)⟩

/-- Claim C2: while a job under the idempotency key `hostname_address` is
QUEUED or RUNNING, a new ADD submission for the same pair returns the
duplicate (HTTP 409) response referencing the existing job id and leaves
the registry and the queue exactly as they were. -/
theorem add_node_duplicate_in_progress (st : ServerState) (hostname ip : String)
    (j : JobRec) (hj : lookupKV st.jobs (add_job_id hostname ip) = some j)
    (hst : j.status = JobStatus.queued ∨ j.status = JobStatus.running) :
    add_node st hostname ip = (AddResponse.conflict (add_job_id hostname ip), st) := by
  rcases hst with h | h <;> simp [add_node, hj, h]

/-- Witness for C2 at a registry with one RUNNING job for the key. -/
theorem add_node_duplicate_in_progress_witness :
    lookupKV runningState.jobs (add_job_id "w1" "10.0.0.5")
      = some { hostname := "w1", ip := "10.0.0.5", status := JobStatus.running } ∧
    add_node runningState "w1" "10.0.0.5"
      = (AddResponse.conflict (add_job_id "w1" "10.0.0.5"), runningState) :=
  ⟨by decide, add_node_duplicate_in_progress runningState "w1" "10.0.0.5"
    { hostname := "w1", ip := "10.0.0.5", status := JobStatus.running }
    (by decide) (Or.inr rfl)⟩

/-- Claim C8: when the job under the key is already terminal (COMPLETED or
FAILED), a new ADD submission is accepted (HTTP 202), overwrites the
terminal record with a fresh QUEUED record under the same key without
growing the registry, and appends the job to the work queue. -/
theorem add_node_after_terminal (st : ServerState) (hostname ip : String)
    (j : JobRec) (hj : lookupKV st.jobs (add_job_id hostname ip) = some j)
    (hst : j.status = JobStatus.completed ∨ j.status = JobStatus.failed) :
    (add_node st hostname ip).1
      = AddResponse.accepted (add_job_id hostname ip) (st.queue.length + 1) ∧
    lookupKV (add_node st hostname ip).2.jobs (add_job_id hostname ip)
      = some { hostname := hostname, ip := ip, status := JobStatus.queued } ∧
    (add_node st hostname ip).2.jobs.length = st.jobs.length ∧
    (add_node st hostname ip).2.queue
      = st.queue ++ [(add_job_id hostname ip, hostname, ip)] := by
  rcases hst with h | h <;>
    simp [add_node, hj, h, lookupKV_insertKV_self,
      length_insertKV_of_lookup _ _ _ _ hj]

/-- Witness for C8 at a registry with one FAILED job for the key. -/
theorem add_node_after_terminal_witness :
    lookupKV failedState.jobs (add_job_id "w1" "10.0.0.5")
      = some { hostname := "w1", ip := "10.0.0.5", status := JobStatus.failed } ∧
    ((add_node failedState "w1" "10.0.0.5").1
        = AddResponse.accepted (add_job_id "w1" "10.0.0.5")
            (failedState.queue.length + 1) ∧
      lookupKV (add_node failedState "w1" "10.0.0.5").2.jobs (add_job_id "w1" "10.0.0.5")
        = some { hostname := "w1", ip := "10.0.0.5", status := JobStatus.queued } ∧
      (add_node failedState "w1" "10.0.0.5").2.jobs.length = failedState.jobs.length ∧
      (add_node failedState "w1" "10.0.0.5").2.queue
        = failedState.queue ++ [(add_job_id "w1" "10.0.0.5", "w1", "10.0.0.5")]) :=
  ⟨by decide, add_node_after_terminal failedState "w1" "10.0.0.5"
    { hostname := "w1", ip := "10.0.0.5", status := JobStatus.failed }
    (by decide) (Or.inr rfl)⟩

/-- Claim C5: both mutating inventory writes attempt the backup first —
the backup event opens the trace and any write event comes after it — and
a failed backup attempt changes neither the function's success result nor
the stored document (so the caller's operation is unaffected). -/
theorem backup_before_write_and_nonfatal (backupOk : Bool) (inv : Inventory)
    (hostname ip : String) :
    (update_inventory backupOk inv hostname ip).trace
      = [backup_inventory backupOk inv, Ev.write] ∧
    ((remove_from_inventory backupOk inv hostname).trace
        = [backup_inventory backupOk inv] ∨
      (remove_from_inventory backupOk inv hostname).trace
        = [backup_inventory backupOk inv, Ev.write]) ∧
    (update_inventory backupOk inv hostname ip).ok
      = (update_inventory true inv hostname ip).ok ∧
    (update_inventory backupOk inv hostname ip).doc
      = (update_inventory true inv hostname ip).doc ∧
    (remove_from_inventory backupOk inv hostname).ok
      = (remove_from_inventory true inv hostname).ok ∧
    (remove_from_inventory backupOk inv hostname).doc
      = (remove_from_inventory true inv hostname).doc := by
  by_cases h1 : (lookupKV inv.hosts hostname).isNone
  · simp [update_inventory, remove_from_inventory, h1]
  · by_cases h2 : hostInGroup inv "kube_control_plane" hostname
    · simp [update_inventory, remove_from_inventory, h1, h2]
    · simp [update_inventory, remove_from_inventory, h1, h2]

/-- Claim C6: whenever the playbook invocation exits with code zero, the
ADD job is marked COMPLETED and the readiness snapshot — whatever it says
— is attached to the job record; readiness never gates the terminal
state. -/
theorem provisioner_success_completes (backupOk : Bool) (inv : Inventory)
    (hostname ip : String) (ns : NodeStatus) :
    (run_ansible_playbook backupOk inv hostname ip (ProvResult.exit 0) ns).status
      = JobStatus.completed ∧
    (run_ansible_playbook backupOk inv hostname ip (ProvResult.exit 0) ns).node_status
      = some ns := by
  simp [run_ansible_playbook, update_inventory]

/-- The ADD pipeline stores the document produced by `update_inventory`,
whatever the playbook outcome was. -/
theorem run_ansible_playbook_doc (backupOk : Bool) (inv : Inventory)
    (hostname ip : String) (prov : ProvResult) (ns : NodeStatus) :
    (run_ansible_playbook backupOk inv hostname ip prov ns).doc
      = (update_inventory backupOk inv hostname ip).doc := by
  cases prov with
  | exit code =>
      by_cases h : code = 0 <;> simp [run_ansible_playbook, update_inventory, h]
  | timeout => simp [run_ansible_playbook, update_inventory]
  | exn => simp [run_ansible_playbook, update_inventory]

/-- Claim C3: an ADD job that reaches COMPLETED leaves an inventory whose
entry for the submitted hostname carries the submitted address in
`ansible_host`, `ip` and `access_ip`, lists the hostname in the
`kube_node` group, and keeps every other hostname's entry unchanged. -/
theorem add_completed_inventory (backupOk : Bool) (inv : Inventory)
    (hostname ip : String) (prov : ProvResult) (ns : NodeStatus)
    (_hc : (run_ansible_playbook backupOk inv hostname ip prov ns).status
        = JobStatus.completed) :
    (lookupKV (run_ansible_playbook backupOk inv hostname ip prov ns).doc.hosts
        hostname).map HostVars.ansible_host = some ip ∧
    (lookupKV (run_ansible_playbook backupOk inv hostname ip prov ns).doc.hosts
        hostname).map HostVars.ip = some ip ∧
    (lookupKV (run_ansible_playbook backupOk inv hostname ip prov ns).doc.hosts
        hostname).map HostVars.access_ip = some ip ∧
    hostInGroup (run_ansible_playbook backupOk inv hostname ip prov ns).doc
      "kube_node" hostname = true ∧
    ∀ h', h' ≠ hostname →
      lookupKV (run_ansible_playbook backupOk inv hostname ip prov ns).doc.hosts h'
        = lookupKV inv.hosts h' := by
  rw [run_ansible_playbook_doc]
  refine ⟨?_, ?_, ?_, ?_, ?_⟩
  · simp [update_inventory, lookupKV_insertKV_self, newHostVars]
  · simp [update_inventory, lookupKV_insertKV_self, newHostVars]
  · simp [update_inventory, lookupKV_insertKV_self, newHostVars]
  · by_cases hmem : hostname ∈ ((lookupKV inv.children "kube_node").getD none).getD []
    · simp [update_inventory, hostInGroup, lookupKV_insertKV_self, hmem]
    · simp [update_inventory, hostInGroup, lookupKV_insertKV_self, hmem]
  · intro h' hne
    simp only [update_inventory]
    exact lookupKV_insertKV_ne _ _ _ _ hne

/-- Witness for C3 at a concrete completed ADD of `"w1"`/`"10.0.0.5"`. -/
theorem add_completed_inventory_witness :
    (run_ansible_playbook true sampleInv "w1" "10.0.0.5" (ProvResult.exit 0)
        { nodeExists := true, ready := true }).status = JobStatus.completed ∧
    ((lookupKV (run_ansible_playbook true sampleInv "w1" "10.0.0.5" (ProvResult.exit 0)
          { nodeExists := true, ready := true }).doc.hosts
        "w1").map HostVars.ansible_host = some "10.0.0.5" ∧
      (lookupKV (run_ansible_playbook true sampleInv "w1" "10.0.0.5" (ProvResult.exit 0)
          { nodeExists := true, ready := true }).doc.hosts
        "w1").map HostVars.ip = some "10.0.0.5" ∧
      (lookupKV (run_ansible_playbook true sampleInv "w1" "10.0.0.5" (ProvResult.exit 0)
          { nodeExists := true, ready := true }).doc.hosts
        "w1").map HostVars.access_ip = some "10.0.0.5" ∧
      hostInGroup (run_ansible_playbook true sampleInv "w1" "10.0.0.5" (ProvResult.exit 0)
          { nodeExists := true, ready := true }).doc "kube_node" "w1" = true ∧
      ∀ h', h' ≠ "w1" →
        lookupKV (run_ansible_playbook true sampleInv "w1" "10.0.0.5" (ProvResult.exit 0)
            { nodeExists := true, ready := true }).doc.hosts h'
          = lookupKV sampleInv.hosts h') :=
  ⟨by decide, add_completed_inventory true sampleInv "w1" "10.0.0.5" (ProvResult.exit 0)
    { nodeExists := true, ready := true } (by decide)⟩

/-- Counterexample to claim C4 as stated: removing host `"n1"` of
`etcdInv`, a member of the `etcd` group, is not refused — the mutation
succeeds, the host disappears from the host map, and the stored
document's `etcd` group still references it (an orphaned group
reference). -/
theorem remove_orphan_counterexample :
    (remove_from_inventory true etcdInv "n1").ok = true ∧
    (remove_from_inventory true etcdInv "n1").doc ≠ etcdInv ∧
    lookupKV (remove_from_inventory true etcdInv "n1").doc.hosts "n1" = none ∧
    hostInGroup (remove_from_inventory true etcdInv "n1").doc "etcd" "n1" = true := by
  decide

/-- Claim C4 (amended): the removal path enforces only the control-plane
protection — once the hostname-present and control-plane checks pass, the
mutation proceeds: the host is deleted from the host map while every
group other than `kube_node` keeps exactly its prior membership, so a
deleted host belonging to such a group is left as an orphaned reference
rather than the mutation being refused. -/
theorem remove_other_groups_untouched (backupOk : Bool) (inv : Inventory)
    (hostname : String)
    (hpres : (lookupKV inv.hosts hostname).isNone = false)
    (hcp : hostInGroup inv "kube_control_plane" hostname = false) :
    (remove_from_inventory backupOk inv hostname).ok = true ∧
    lookupKV (remove_from_inventory backupOk inv hostname).doc.hosts hostname = none ∧
    ∀ g, g ≠ "kube_node" →
      lookupKV (remove_from_inventory backupOk inv hostname).doc.children g
        = lookupKV inv.children g := by
  by_cases hkn : hostInGroup inv "kube_node" hostname
  · refine ⟨?_, ?_, ?_⟩
    · simp [remove_from_inventory, hpres, hcp, hkn]
    · simp [remove_from_inventory, hpres, hcp, hkn, lookupKV_eraseKV_self]
    · intro g hg
      simp only [remove_from_inventory, hpres, hcp, hkn]
      simp only [Bool.false_eq_true, if_false, if_true]
      exact lookupKV_insertKV_ne _ _ _ _ hg
  · refine ⟨?_, ?_, ?_⟩
    · simp [remove_from_inventory, hpres, hcp, hkn]
    · simp [remove_from_inventory, hpres, hcp, hkn, lookupKV_eraseKV_self]
    · intro g hg
      simp [remove_from_inventory, hpres, hcp, hkn]

/-- Witness for C4 (amended) at `etcdInv`: the removal of `"n1"` succeeds
and the `etcd` group's entry is exactly what it was. -/
theorem remove_other_groups_untouched_witness :
    (lookupKV etcdInv.hosts "n1").isNone = false ∧
    hostInGroup etcdInv "kube_control_plane" "n1" = false ∧
    ((remove_from_inventory true etcdInv "n1").ok = true ∧
      lookupKV (remove_from_inventory true etcdInv "n1").doc.hosts "n1" = none ∧
      ∀ g, g ≠ "kube_node" →
        lookupKV (remove_from_inventory true etcdInv "n1").doc.children g
          = lookupKV etcdInv.children g) :=
  ⟨by decide, by decide,
    remove_other_groups_untouched true etcdInv "n1" (by decide) (by decide)⟩

/-- Counterexample to claim C7 as stated: two REMOVE submissions for the
same hostname with different addresses get different job keys — the key
does not omit the address. -/
theorem remove_job_id_counterexample :
    remove_job_id "n1" (some "10.0.0.1") ≠ remove_job_id "n1" (some "10.0.0.2") := by
  decide

/-- Claim C7 (amended): the REMOVE job key is derived deterministically
from the hostname and the submitted address, with `"unknown"` standing in
for a falsy address — absent or empty alike.  Two REMOVE submissions for
the same hostname with non-empty addresses map to the same key exactly
when their addresses agree, while an empty address collides with an
absent one. -/
theorem remove_job_id_address_dependent (hostname a b : String)
    (ha : a ≠ "") (hb : b ≠ "") :
    (remove_job_id hostname (some a) = remove_job_id hostname (some b) ↔ a = b) ∧
    remove_job_id hostname (some "") = remove_job_id hostname none := by
  have ea : remove_job_id hostname (some a) = "remove_" ++ hostname ++ "_" ++ a := by
    simp [remove_job_id, ha]
  have eb : remove_job_id hostname (some b) = "remove_" ++ hostname ++ "_" ++ b := by
    simp [remove_job_id, hb]
  refine ⟨?_, by simp [remove_job_id]⟩
  rw [ea, eb]
  constructor
  · intro h
    have hd := congrArg String.data h
    simp only [String.data_append] at hd
    exact String.ext (List.append_cancel_left hd)
  · intro h
    rw [h]

/-- Witness for C7 (amended) at two concrete non-empty addresses. -/
theorem remove_job_id_address_dependent_witness :
    ("10.0.0.1" : String) ≠ "" ∧ ("10.0.0.2" : String) ≠ "" ∧
    ((remove_job_id "n1" (some "10.0.0.1") = remove_job_id "n1" (some "10.0.0.2") ↔
        "10.0.0.1" = "10.0.0.2") ∧
      remove_job_id "n1" (some "") = remove_job_id "n1" none) :=
  ⟨by decide, by decide,
    remove_job_id_address_dependent "n1" "10.0.0.1" "10.0.0.2" (by decide) (by decide)⟩

/-- Every entry produced by the reconciler's dynamic-host tagging is
dynamic, so filtering it for static entries yields nothing. -/
theorem filter_static_map_dynamic (l : List (String × String)) :
    ((l.map (fun p => (p.1, ({ address := p.2, origin := Origin.dynamic } : RHost)))).filter
      (fun p => p.2.origin = Origin.static)) = [] := by
  apply List.filter_eq_nil_iff.mpr
  intro a ha
  rcases List.mem_map.mp ha with ⟨p, _, rfl⟩
  simp

/-- The static entries of a reconciled document are exactly the static
entries of its input. -/
theorem reconcile_filter_static (net : Option String) (cloud : List CloudServer)
    (d : RDoc) :
    (reconcile net cloud d).hosts.filter (fun p => p.2.origin = Origin.static)
      = d.hosts.filter (fun p => p.2.origin = Origin.static) := by
  simp only [reconcile, List.filter_append]
  rw [filter_static_map_dynamic, List.append_nil]
  refine List.filter_eq_self.mpr (fun a ha => ?_)
  exact (List.mem_filter.mp ha).2

/-- The reconciled host list depends on the input only through its static
entries. -/
theorem reconcile_hosts_congr (net : Option String) (cloud : List CloudServer)
    {d₁ d₂ : RDoc}
    (h : d₁.hosts.filter (fun p => p.2.origin = Origin.static)
        = d₂.hosts.filter (fun p => p.2.origin = Origin.static)) :
    (reconcile net cloud d₁).hosts = (reconcile net cloud d₂).hosts := by
  simp only [reconcile, h]

/-- Membership in the reconciled worker group: a surviving static member
of the input's worker group, or a resolved cloud server name. -/
theorem mem_reconcile_worker (net : Option String) (cloud : List CloudServer)
    (d : RDoc) (n : String) :
    n ∈ (reconcile net cloud d).workerGroup ↔
      (n ∈ d.workerGroup ∧ isStaticIn d n = true) ∨
      n ∈ (cloud.filterMap
        (fun s => (resolveAddress net s).map (fun a => (s.name, a)))).map
          (fun p => p.1) := by
  simp [reconcile, List.mem_append, List.mem_filter]

/-- A host whose first entry is static stays static across
reconciliation. -/
theorem isStaticIn_reconcile (net : Option String) (cloud : List CloudServer)
    (d : RDoc) (n : String) (h : isStaticIn d n = true) :
    isStaticIn (reconcile net cloud d) n = true := by
  rcases he : lookupKV d.hosts n with _ | e
  · rw [isStaticIn, he] at h
    simp at h
  · rw [isStaticIn, he] at h
    have horig : e.origin = Origin.static := by simpa using h
    have h1 : lookupKV (d.hosts.filter (fun p => p.2.origin = Origin.static)) n
        = some e :=
      lookupKV_filter_of_some he (by simp [horig])
    have h2 : lookupKV (reconcile net cloud d).hosts n = some e := by
      simp only [reconcile]
      exact lookupKV_append_of_some h1
    rw [isStaticIn, h2]
    simp [horig]

/-- Claim C9: reconciliation is idempotent — with the network
configuration and the cloud listing fixed, the second run reproduces the
first run's host list on the nose, the same worker-group membership set,
and the untouched control-plane and other groups. -/
theorem reconcile_idempotent (net : Option String) (cloud : List CloudServer)
    (doc : RDoc) :
    (reconcile net cloud (reconcile net cloud doc)).hosts
      = (reconcile net cloud doc).hosts ∧
    (∀ n, n ∈ (reconcile net cloud (reconcile net cloud doc)).workerGroup ↔
        n ∈ (reconcile net cloud doc).workerGroup) ∧
    (reconcile net cloud (reconcile net cloud doc)).controlPlaneGroup
      = (reconcile net cloud doc).controlPlaneGroup ∧
    (reconcile net cloud (reconcile net cloud doc)).otherGroups
      = (reconcile net cloud doc).otherGroups := by
  refine ⟨reconcile_hosts_congr net cloud (reconcile_filter_static net cloud doc),
    ?_, rfl, rfl⟩
  intro n
  constructor
  · intro hn
    rcases (mem_reconcile_worker net cloud (reconcile net cloud doc) n).mp hn with
      ⟨h1, _⟩ | h2
    · exact h1
    · exact (mem_reconcile_worker net cloud doc n).mpr (Or.inr h2)
  · intro hn
    rcases (mem_reconcile_worker net cloud doc n).mp hn with ⟨_, h2⟩ | h2
    · exact (mem_reconcile_worker net cloud (reconcile net cloud doc) n).mpr
        (Or.inl ⟨hn, isStaticIn_reconcile net cloud doc n h2⟩)
    · exact (mem_reconcile_worker net cloud (reconcile net cloud doc) n).mpr
        (Or.inr h2)

end KubesprayScaleApi
